import Mathlib

/-! Verification development for the Illegal Drone Tracking service
(src/main.py).  Python floats are modelled as exact rationals on the data
pipeline and as real numbers inside the trigonometric distance computation;
the process-global ALERTED_DRONES dictionary is modelled as an explicit
association list threaded through the batch processor, and the outcome of
each external collaborator (upstream fetch, SMTP transport) is an explicit
input of the cycle function. -/

namespace DroneTrack

/-- One restricted-zone entry of RESTRICTED_ZONES (src/main.py lines 78-102):
a named circular area with centre coordinates, radius in km and a category. -/
structure Zone where
  name : String
  latitude : ℝ
  longitude : ℝ
  radius : ℝ
  ztype : String

/-- The static zone registry RESTRICTED_ZONES (src/main.py lines 78-102),
in definition order. -/
noncomputable def RESTRICTED_ZONES : List Zone :=
  [ ⟨"JFK Airport", 40.6413, -73.7781, 10, "Airport"⟩
  , ⟨"Los Angeles Airport", 33.9416, -118.4085, 10, "Airport"⟩
  , ⟨"Hartsfield-Jackson Atlanta Airport", 33.6407, -84.4277, 10, "Airport"⟩
  , ⟨"Denver International Airport", 39.8561, -104.6737, 10, "Airport"⟩
  , ⟨"Chicago O\x27Hare Airport", 41.9742, -87.9073, 10, "Airport"⟩
  , ⟨"Dallas/Fort Worth Airport", 32.8998, -97.0403, 10, "Airport"⟩
  , ⟨"Miami International Airport", 25.7959, -80.2870, 10, "Airport"⟩
  , ⟨"San Francisco International Airport", 37.6213, -122.3790, 10, "Airport"⟩
  , ⟨"Seattle-Tacoma International Airport", 47.4502, -122.3088, 10, "Airport"⟩
  , ⟨"Orlando International Airport", 28.4312, -81.3081, 10, "Airport"⟩
  , ⟨"Pentagon", 38.8719, -77.0563, 5, "Military"⟩
  , ⟨"Fort Liberty (Bragg)", 35.1401, -79.0060, 10, "Military"⟩
  , ⟨"Edwards Air Force Base", 34.9054, -117.8844, 15, "Military"⟩
  , ⟨"Wright-Patterson Air Force Base", 39.8149, -84.0497, 10, "Military"⟩
  , ⟨"Norfolk Naval Base", 36.9460, -76.3087, 10, "Military"⟩
  , ⟨"White House", 38.8977, -77.0365, 3, "Government"⟩
  , ⟨"Area 51", 37.2431, -115.7930, 15, "Government"⟩
  , ⟨"Cheyenne Mountain Complex", 38.6766, -104.7887, 8, "Military"⟩
  , ⟨"Los Alamos National Lab", 35.8440, -106.2857, 8, "Government"⟩
  , ⟨"Groom Lake Facility (CIA)", 37.2491, -115.8001, 12, "Government"⟩ ]

/-- CONUS_BOUNDS lat_min (src/main.py lines 105-108). -/
def CONUS_LAT_MIN : ℝ := 24.0
/-- CONUS_BOUNDS lat_max. -/
def CONUS_LAT_MAX : ℝ := 49.0
/-- CONUS_BOUNDS lon_min. -/
def CONUS_LON_MIN : ℝ := -125.0
/-- CONUS_BOUNDS lon_max. -/
def CONUS_LON_MAX : ℝ := -66.0

/-- ALERT_COOLDOWN = 300 seconds (src/main.py line 112). -/
@[reducible] def ALERT_COOLDOWN : ℚ := 300

/-- math.radians: degrees to radians. -/
noncomputable def radians (x : ℝ) : ℝ := x * (Real.pi / 180)

/-- math.atan2 over the reals (full quadrant-aware arctangent).  In
haversine it is only ever applied to two non-negative square roots. -/
noncomputable def atan2 (y x : ℝ) : ℝ :=
  if 0 < x then Real.arctan (y / x)
  else if x < 0 then
    (if 0 ≤ y then Real.arctan (y / x) + Real.pi else Real.arctan (y / x) - Real.pi)
  else if 0 < y then Real.pi / 2
  else if y < 0 then -(Real.pi / 2)
  else 0

/-- The intermediate value a of the haversine formula
(src/main.py line 130): sin(dlat/2)^2 + cos(lat1)cos(lat2)sin(dlon/2)^2,
with all four inputs first converted to radians (line 127). -/
noncomputable def havA (lat1 lon1 lat2 lon2 : ℝ) : ℝ :=
  Real.sin ((radians lat2 - radians lat1) / 2) ^ 2 +
    Real.cos (radians lat1) * Real.cos (radians lat2) *
      Real.sin ((radians lon2 - radians lon1) / 2) ^ 2

/-- The distance R * c computed by haversine (src/main.py lines 131-132),
with Earth radius R = 6371 km and c = 2 * atan2(sqrt(a), sqrt(1-a)). -/
noncomputable def havDist (lat1 lon1 lat2 lon2 : ℝ) : ℝ :=
  6371 * (2 * atan2 (Real.sqrt (havA lat1 lon1 lat2 lon2))
    (Real.sqrt (1 - havA lat1 lon1 lat2 lon2)))

/-- haversine (src/main.py lines 116-137).  A missing first coordinate yields
float(inf), modelled as the top element of the extended reals; the
isinstance type test on line 123 always succeeds in the typed model, and the
try/except on lines 126-137 cannot fire in the real-number model (Real.sqrt
is total), so those branches are statically absent. -/
noncomputable def haversine (lat1 lon1 : Option ℝ) (lat2 lon2 : ℝ) : EReal :=
  match lat1, lon1 with
  | some la, some lo => ((havDist la lo lat2 lon2 : ℝ) : EReal)
  | _, _ => ⊤

open Classical

/-- The zone loop of is_unauthorized_flight (src/main.py lines 145-171):
zones are scanned in registry order and the first zone whose centre lies
within its radius wins.  The per-zone key-presence and type checks on lines
148-153 always succeed on the static registry, and the try/except body
cannot fail in the model, so both are statically absent. -/
noncomputable def zoneScan (la lo : ℝ) : List Zone → Bool × Option String
  | [] => (false, none)
  | z :: zs =>
    if haversine (some la) (some lo) z.latitude z.longitude ≤ ((z.radius : ℝ) : EReal)
    then (true, some z.name) else zoneScan la lo zs

/-- is_unauthorized_flight (src/main.py lines 139-173): missing coordinates
classify as (False, None); otherwise the registry is scanned in order. -/
noncomputable def is_unauthorized_flight (latitude longitude : Option ℝ) :
    Bool × Option String :=
  match latitude, longitude with
  | some la, some lo => zoneScan la lo RESTRICTED_ZONES
  | _, _ => (false, none)

lemma havA_symm (la1 lo1 la2 lo2 : ℝ) :
    havA la1 lo1 la2 lo2 = havA la2 lo2 la1 lo1 := by
  unfold havA
  have h1 : (radians la1 - radians la2) / 2 = -((radians la2 - radians la1) / 2) := by
    ring
  have h2 : (radians lo1 - radians lo2) / 2 = -((radians lo2 - radians lo1) / 2) := by
    ring
  rw [h1, h2, Real.sin_neg, Real.sin_neg]
  ring

lemma havA_self (a b : ℝ) : havA a b a b = 0 := by
  unfold havA
  simp

lemma havDist_symm (la1 lo1 la2 lo2 : ℝ) :
    havDist la1 lo1 la2 lo2 = havDist la2 lo2 la1 lo1 := by
  unfold havDist
  rw [havA_symm la1 lo1 la2 lo2]

lemma havDist_self (a b : ℝ) : havDist a b a b = 0 := by
  unfold havDist
  rw [havA_self]
  have h1 : Real.sqrt (1 - 0) = 1 := by
    rw [sub_zero, Real.sqrt_one]
  rw [h1, Real.sqrt_zero]
  have h2 : atan2 0 1 = 0 := by
    unfold atan2
    rw [if_pos (by norm_num : (0:ℝ) < 1)]
    simp [Real.arctan_zero]
  rw [h2]
  ring

lemma haversine_self (a b : ℝ) :
    haversine (some a) (some b) a b = ((0 : ℝ) : EReal) := by
  show ((havDist a b a b : ℝ) : EReal) = _
  rw [havDist_self]

/-- C9: over the real-number model of the haversine formula the distance is
symmetric in its two points, and the distance from a point to itself is
exactly zero (the float implementation attains this only up to rounding). -/
theorem C9_haversine_symm_self_zero (a b c d : ℝ) :
    haversine (some a) (some b) c d = haversine (some c) (some d) a b ∧
      haversine (some a) (some b) a b = ((0 : ℝ) : EReal) := by
  constructor
  · show ((havDist a b c d : ℝ) : EReal) = ((havDist c d a b : ℝ) : EReal)
    rw [havDist_symm]
  · exact haversine_self a b

/-- C5: when the latitude or the longitude of the checked point is absent,
is_unauthorized_flight answers (False, None) — authorized, no zone — and
haversine returns the infinite sentinel instead of failing. -/
theorem C5_missing_coordinates (lat lon : Option ℝ) (la2 lo2 : ℝ)
    (h : lat = none ∨ lon = none) :
    is_unauthorized_flight lat lon = (false, none) ∧
      haversine lat lon la2 lo2 = ⊤ := by
  rcases h with h | h
  · subst h
    cases lon <;> exact ⟨rfl, rfl⟩
  · subst h
    cases lat <;> exact ⟨rfl, rfl⟩

/-- Witness for C5 at the concrete input (None, 5.0): the point check is
authorized with no zone and the distance to (1.0, 2.0) is infinite. -/
theorem C5_missing_coordinates_witness :
    is_unauthorized_flight none (some 5) = (false, none) ∧
      haversine none (some 5) 1 2 = ⊤ :=
  C5_missing_coordinates none (some 5) 1 2 (Or.inl rfl)

/-- A heterogeneous value inside a raw OpenSky state vector: null, a JSON
string, or a JSON number (floats modelled as exact rationals). -/
inductive PyVal where
  | vnone
  | vstr (s : String)
  | vnum (q : ℚ)
deriving DecidableEq

/-- Python truthiness of a raw value (None, the empty string and 0 are
falsy), used by the callsign extraction on line 357 of src/main.py. -/
def PyVal.truthy : PyVal → Bool
  | .vnone => false
  | .vstr s => !(s == "")
  | .vnum q => decide (q ≠ 0)

/-- Python str() of a raw value.  Only its blank-or-not status is ever
observed by the code; the numeric rendering is the rational one. -/
def PyVal.toStr : PyVal → String
  | .vnone => "None"
  | .vstr s => s
  | .vnum q => toString q

/-- float(x) if isinstance(x, (float, int)) else None, as on lines 358-362
of src/main.py. -/
def PyVal.toNum : PyVal → Option ℚ
  | .vnum q => some q
  | _ => none

/-- True when a raw value is either non-numeric or a non-negative number;
used to state the amended non-negativity property of C8. -/
def PyVal.numNonneg : PyVal → Bool
  | .vnum q => decide (0 ≤ q)
  | _ => true

/-- Whitespace stripped by Python str.strip (the common four characters). -/
def pyWS (c : Char) : Bool :=
  c == ' ' || c == '\t' || c == '\n' || c == '\r'

/-- Python str.strip(): remove leading and trailing whitespace. -/
def pyStrip (s : String) : String :=
  String.mk (((s.data.dropWhile pyWS).reverse.dropWhile pyWS).reverse)

/-- A normalized position report, the outcome of lines 357-362 of
src/main.py for a raw state that survives the basic validation. -/
structure Parsed where
  callsign : String
  latitude : ℚ
  longitude : ℚ
  velocity : Option ℚ
  geo_altitude : Option ℚ
  baro_altitude : Option ℚ
deriving DecidableEq

/-- The report normalizer inlined in fetch_opensky_data
(src/main.py lines 354-367): reject when the record is shorter than 14
fields, when the callsign slot is falsy or strips to the empty string, or
when latitude/longitude are missing or non-numeric.  No branch raises. -/
def parseState (state : List PyVal) : Option Parsed :=
  if state.length < 14 then none
  else
    let cs : Option String :=
      if (state.getD 1 .vnone).truthy
      then some (pyStrip ((state.getD 1 .vnone).toStr)) else none
    match cs, (state.getD 6 .vnone).toNum, (state.getD 5 .vnone).toNum with
    | some c, some la, some lo =>
        if c = "" then none
        else some
          { callsign := c, latitude := la, longitude := lo
          , velocity := (state.getD 9 .vnone).toNum
          , geo_altitude := (state.getD 13 .vnone).toNum
          , baro_altitude := (state.getD 7 .vnone).toNum }
    | _, _, _ => none

/-- One classified drone record as placed in structured_flights
(src/main.py lines 378-387 and the two simulation variants). -/
structure Report where
  callsign : String
  latitude : ℝ
  longitude : ℝ
  altitude : ℤ
  velocity : ℚ
  unauthorized : Bool
  zone : Option String
  source : String

/-- One entry of alerts_to_batch_this_run (src/main.py lines 402-404). -/
structure ViolationEvent where
  callsign : String
  latitude : ℝ
  longitude : ℝ
  zone_name : Option String

/-- The mutable alerting state of a cycle: the ALERTED_DRONES mapping
(src/main.py line 111) as an insertion-ordered association list, plus the
violation events batched so far in this cycle. -/
structure AlertSt where
  tracker : List (String × ℚ)
  alerts : List ViolationEvent

/-- ALERTED_DRONES.get(callsign): first matching entry. -/
def lookupT : List (String × ℚ) → String → Option ℚ
  | [], _ => none
  | e :: rest, cs => if e.1 = cs then some e.2 else lookupT rest cs

/-- ALERTED_DRONES[callsign] = now: replace the existing entry in place or
append a new one, as a Python dict does. -/
def insertT : List (String × ℚ) → String → ℚ → List (String × ℚ)
  | [], cs, t => [(cs, t)]
  | e :: rest, cs, t =>
      if e.1 = cs then (cs, t) :: rest else e :: insertT rest cs t

/-- The cooldown-gated alert accumulation of src/main.py lines 398-407 (the
simulated branch on lines 483-490 repeats the same logic): an unauthorized
sighting alerts iff the entity is absent from the tracker or its last alert
is strictly older than ALERT_COOLDOWN, in which case one event is appended
and the timestamp is upserted; otherwise nothing changes. -/
def alertStep (st : AlertSt) (cs : String) (la lo : ℝ) (zname : Option String)
    (unauth : Bool) (now : ℚ) : AlertSt :=
  if unauth then
    match lookupT st.tracker cs with
    | none =>
        { tracker := insertT st.tracker cs now
        , alerts := st.alerts ++ [⟨cs, la, lo, zname⟩] }
    | some last =>
        if ALERT_COOLDOWN < now - last then
          { tracker := insertT st.tracker cs now
          , alerts := st.alerts ++ [⟨cs, la, lo, zname⟩] }
        else st
  else st

/-- The cooldown cache cleanup of src/main.py lines 498-502: every entry
strictly older than ALERT_COOLDOWN is removed. -/
def purgeExpired (tr : List (String × ℚ)) (now : ℚ) : List (String × ℚ) :=
  tr.filter (fun e => !(decide (ALERT_COOLDOWN < now - e.2)))

/-- The result of validate_drone_counts (src/main.py lines 175-186). -/
structure Validation where
  total_drones : ℕ
  authorized : ℕ
  unauthorized : ℕ
  validation_passed : Bool

/-- validate_drone_counts (src/main.py lines 175-186).  The isinstance
checks always succeed in the typed model, and the unauthorized field of a
Report is always a Bool, so the is-False / is-True tests are the two Bool
cases. -/
def validate_drone_counts (ds : List Report) : Validation :=
  let auth := (ds.filter fun d => d.unauthorized == false).length
  let unauth := (ds.filter fun d => d.unauthorized == true).length
  { total_drones := ds.length
  , authorized := auth
  , unauthorized := unauth
  , validation_passed := decide (auth + unauth = ds.length) }

/-- The state of the outside world that send_batched_alert_email interacts
with: whether the three credentials are configured, and the outcome of the
SMTP transport session. -/
structure EmailEnv where
  credsOk : Bool
  transport : Except String Unit

/-- The observable effect of one send_batched_alert_email call: how many
SMTP sessions were attempted, whether an error was logged, and whether the
message went out. -/
structure EmailLog where
  attempted : ℕ
  errorLogged : Bool
  sent : Bool
deriving DecidableEq

/-- send_batched_alert_email (src/main.py lines 230-290): an empty batch
returns silently; missing credentials are error-logged without any SMTP
attempt; otherwise exactly one SMTP session is attempted and any transport
failure is caught by the except handler on line 279 and error-logged.  The
function is total: no outcome escapes as an exception. -/
def send_batched_alert_email (alerts : List ViolationEvent) (env : EmailEnv) :
    EmailLog :=
  if alerts.isEmpty then ⟨0, false, false⟩
  else if !env.credsOk then ⟨0, true, false⟩
  else
    match env.transport with
    | .ok _ => ⟨1, false, true⟩
    | .error _ => ⟨1, true, false⟩

/-- round(x, 1) (one decimal, src/main.py line 383).  Mathlib round is
half-away-from-floor rather than Python round-half-even; the two agree off
exact ties. -/
def roundTo1 (q : ℚ) : ℚ := (round (q * 10) : ℚ) / 10

/-- round(x, 6) on a rational (src/main.py lines 429 and 465). -/
def round6Q (q : ℚ) : ℚ := (round (q * 1000000) : ℚ) / 1000000

/-- round(x, 6) on a real (simulated unauthorized coordinates). -/
noncomputable def round6R (x : ℝ) : ℝ := ((round (x * 1000000) : ℤ) : ℝ) / 1000000

/-- The accumulating state of one cycle: structured_flights plus the
alerting state. -/
structure CycleSt where
  reports : List Report
  astate : AlertSt

/-- The real-flight loop of fetch_opensky_data (src/main.py lines 353-407):
normalize each state (skipping rejects), classify it, append the structured
record, and run the cooldown-gated alert step.  The tuple unpacking of
is_unauthorized_flight is rendered with .1/.2 projections; the best-effort
database logging on lines 391-395 has no effect on the cycle. -/
noncomputable def processReal (src : String) (now : ℚ) :
    List (List PyVal) → CycleSt → CycleSt
  | [], st => st
  | s :: rest, st =>
    match parseState s with
    | none => processReal src now rest st
    | some p =>
      let altitude_m : Option ℚ :=
        match p.geo_altitude with
        | some g => some g
        | none => p.baro_altitude
      let velocity_kmh : ℚ :=
        match p.velocity with
        | some v => v * 3.6
        | none => 0
      let c := is_unauthorized_flight (some (p.latitude : ℝ)) (some (p.longitude : ℝ))
      let rep : Report :=
        { callsign := p.callsign
        , latitude := (p.latitude : ℝ)
        , longitude := (p.longitude : ℝ)
        , altitude := match altitude_m with | some a => round a | none => 0
        , velocity := roundTo1 velocity_kmh
        , unauthorized := c.1
        , zone := c.2
        , source := src }
      processReal src now rest
        { reports := st.reports ++ [rep]
        , astate := alertStep st.astate p.callsign (p.latitude : ℝ) (p.longitude : ℝ)
            c.2 c.1 now }

/-- One iteration's random draws for the authorized-simulation loop
(src/main.py lines 420-442): the uniform CONUS coordinates, the callsign
number, and the altitude and velocity randint results. -/
structure AuthDraw where
  lat : ℚ
  lon : ℚ
  csnum : ℕ
  alt : ℤ
  vel : ℤ
deriving DecidableEq

/-- One iteration's random draws for the unauthorized-simulation loop
(src/main.py lines 446-467): the zone choice, the radius factor and
bearing, the callsign number, and the altitude and velocity randint
results. -/
structure UnauthDraw where
  zoneIdx : ℕ
  factor : ℚ
  angle : ℚ
  csnum : ℕ
  alt : ℤ
  vel : ℤ
deriving DecidableEq

/-- The whole random tape of one simulation block: the two target counts
(randint(25,50) and randint(5,10)) and the per-iteration draw streams. -/
structure SimPlan where
  targetAuth : ℕ
  targetUnauth : ℕ
  authDraws : List AuthDraw
  unauthDraws : List UnauthDraw

/-- The simulated authorized record built on lines 427-433 of src/main.py. -/
noncomputable def authReport (src : String) (d : AuthDraw) : Report :=
  { callsign := "SIM-A-" ++ toString d.csnum
  , latitude := ((round6Q d.lat : ℚ) : ℝ)
  , longitude := ((round6Q d.lon : ℚ) : ℝ)
  , altitude := d.alt
  , velocity := (d.vel : ℚ)
  , unauthorized := false
  , zone := none
  , source := src }

/-- The authorized-simulation while loop (src/main.py lines 420-442): keep
drawing until the target count of confirmed-authorized points is reached or
the 500-attempt budget is exhausted; only re-checked-authorized points are
appended, and the loop never touches the alerting state. -/
noncomputable def simAuthLoop (src : String) (target : ℕ) :
    List AuthDraw → ℕ → CycleSt → CycleSt
  | [], _, st => st
  | d :: ds, count, st =>
    if target ≤ count then st
    else
      let c := is_unauthorized_flight (some (d.lat : ℝ)) (some (d.lon : ℝ))
      if c.1 then simAuthLoop src target ds count st
      else simAuthLoop src target ds (count + 1)
        { st with reports := st.reports ++ [authReport src d] }

/-- The boundary point sampled on lines 447-457 of src/main.py: a random
zone, a radius factor and a bearing give an offset from the zone centre,
then both coordinates are clamped to the CONUS bounding box. -/
noncomputable def simPoint (d : UnauthDraw) : ℝ × ℝ :=
  let z := RESTRICTED_ZONES.getD (d.zoneIdx % RESTRICTED_ZONES.length) ⟨"", 0, 0, 0, ""⟩
  let dist_deg : ℝ := z.radius * (d.factor : ℝ) / 111.0
  let la := z.latitude + dist_deg * Real.cos ((d.angle : ℝ))
  let lo := z.longitude + dist_deg * Real.sin ((d.angle : ℝ)) / Real.cos (radians z.latitude)
  (max CONUS_LAT_MIN (min CONUS_LAT_MAX la), max CONUS_LON_MIN (min CONUS_LON_MAX lo))

/-- The simulated unauthorized record built on lines 459-471 of src/main.py:
the stored flag is the result of re-running the classification on the
sampled point, and the stored zone is that result's zone when the flag is
set and None otherwise — never a forced value. -/
noncomputable def simUnauthReport (src : String) (d : UnauthDraw) : Report :=
  let p := simPoint d
  let c := is_unauthorized_flight (some p.1) (some p.2)
  { callsign := "SIM-U-" ++ toString d.csnum
  , latitude := round6R p.1
  , longitude := round6R p.2
  , altitude := d.alt
  , velocity := (d.vel : ℚ)
  , unauthorized := c.1
  , zone := if c.1 then c.2 else none
  , source := src }

/-- The unauthorized-simulation for loop (src/main.py lines 446-491): build
the re-checked record, append it, and run the same cooldown-gated alert
step as the real loop (lines 483-490), keyed by the simulated callsign and
carrying the unrounded clamped coordinates. -/
noncomputable def simUnauthLoop (src : String) (now : ℚ) :
    List UnauthDraw → CycleSt → CycleSt
  | [], st => st
  | d :: ds, st =>
    let p := simPoint d
    let c := is_unauthorized_flight (some p.1) (some p.2)
    simUnauthLoop src now ds
      { reports := st.reports ++ [simUnauthReport src d]
      , astate := alertStep st.astate ("SIM-U-" ++ toString d.csnum) p.1 p.2
          c.2 c.1 now }

/-- The full outcome of one fetch_opensky_data cycle.  The source function
returns only the drones/validation pair; the alert batch, the email effect
and the final ALERTED_DRONES state are exposed here so the specification
can speak about them. -/
structure FullOutcome where
  drones : List Report
  validation : Validation
  alerts : List ViolationEvent
  emailLog : EmailLog
  tracker : List (String × ℚ)

/-- Steps 2 and 3 of fetch_opensky_data (src/main.py lines 346-495): the
real-flight loop runs only when flights is non-empty, the simulation block
only when it is empty, and the unauthorized simulation only when the zone
registry is non-empty. -/
noncomputable def cycleCore (flights : List (List PyVal)) (plan : SimPlan)
    (src : String) (now : ℚ) (tr0 : List (String × ℚ)) : CycleSt :=
  let st0 : CycleSt := ⟨[], ⟨tr0, []⟩⟩
  let st1 := if flights.isEmpty then st0 else processReal src now flights st0
  if flights.isEmpty then
    let stA := simAuthLoop src plan.targetAuth (plan.authDraws.take 500) 0 st1
    if RESTRICTED_ZONES.isEmpty then stA
    else simUnauthLoop src now (plan.unauthDraws.take plan.targetUnauth) stA
  else st1

/-- fetch_opensky_data (src/main.py lines 295-522), past the network fetch:
flights is the raw state list the fetch step produced (empty on any upstream
failure, which is what triggers the simulation block), plan is the random
tape of the simulation block, now is time.time(), env the SMTP world and
tr0 the ALERTED_DRONES state at entry.  After the processing core: purge
expired cooldown entries (step 4), send the batched email only when new
alerts exist (step 5; the try/except on lines 507-512 never fires since the
send function is total), and validate the counts (step 6). -/
noncomputable def fetch_opensky_data (flights : List (List PyVal)) (plan : SimPlan)
    (src : String) (now : ℚ) (env : EmailEnv) (tr0 : List (String × ℚ)) :
    FullOutcome :=
  let st2 := cycleCore flights plan src now tr0
  let tr1 := purgeExpired st2.astate.tracker now
  let elog :=
    if st2.astate.alerts.isEmpty then EmailLog.mk 0 false false
    else send_batched_alert_email st2.astate.alerts env
  { drones := st2.reports
  , validation := validate_drone_counts st2.reports
  , alerts := st2.astate.alerts
  , emailLog := elog
  , tracker := tr1 }

/-- The JSON object returned by the /force-drone endpoint
(src/main.py line 648). -/
structure ForceResponse where
  callsign : String
  latitude : ℝ
  longitude : ℝ
  unauthorized : Bool
  zone : Option String

/-- force_custom_drone (src/main.py lines 642-648): a pure point check —
its body only calls is_unauthorized_flight on its two arguments and builds
the response. -/
noncomputable def force_custom_drone (latitude longitude : ℝ) : ForceResponse :=
  let c := is_unauthorized_flight (some latitude) (some longitude)
  ⟨"TEST-DRONE", latitude, longitude, c.1, c.2⟩

/-- A request handled by the service that can touch the live state: a full
processing cycle, or a /force-drone point check. -/
inductive Event where
  | cycle (flights : List (List PyVal)) (plan : SimPlan) (src : String)
      (now : ℚ) (env : EmailEnv)
  | pointCheck (latitude longitude : ℝ)

/-- Whether an event is a processing cycle. -/
def Event.isCycle : Event → Bool
  | .cycle _ _ _ _ _ => true
  | .pointCheck _ _ => false

/-- Serialized execution of a request trace against the ALERTED_DRONES
state: a cycle event steps the state through fetch_opensky_data and records
its outcome; a point check runs force_custom_drone, which takes no state
and returns none (translated from its body, which only calls the pure
classifier). -/
noncomputable def runTrace : List (String × ℚ) → List Event →
    List (String × ℚ) × List FullOutcome
  | tr, [] => (tr, [])
  | tr, .cycle f p s n e :: evs =>
      let o := fetch_opensky_data f p s n e tr
      let rest := runTrace o.tracker evs
      (rest.1, o :: rest.2)
  | tr, .pointCheck _ _ :: evs => runTrace tr evs

lemma lookupT_insertT_self (tr : List (String × ℚ)) (cs : String) (t : ℚ) :
    lookupT (insertT tr cs t) cs = some t := by
  induction tr with
  | nil => simp [insertT, lookupT]
  | cons e rest ih =>
    by_cases h : e.1 = cs
    · simp [insertT, h, lookupT]
    · simp [insertT, h, lookupT, ih]

lemma lookupT_insertT_ne (tr : List (String × ℚ)) (cs cs' : String) (t : ℚ)
    (h : cs' ≠ cs) : lookupT (insertT tr cs t) cs' = lookupT tr cs' := by
  have hne : cs ≠ cs' := fun hh => h hh.symm
  induction tr with
  | nil => simp [insertT, lookupT, hne]
  | cons e rest ih =>
    obtain ⟨a, b⟩ := e
    by_cases he : a = cs
    · subst he
      simp [insertT, lookupT, hne]
    · by_cases he' : a = cs'
      · simp [insertT, lookupT, he, he', h]
      · simp [insertT, lookupT, he, he', ih]

lemma count_split (ds : List Report) :
    (ds.filter fun d => d.unauthorized == false).length +
      (ds.filter fun d => d.unauthorized == true).length = ds.length := by
  induction ds with
  | nil => rfl
  | cons d rest ih =>
    rw [List.filter_cons, List.filter_cons]
    cases h : d.unauthorized
    · rw [if_pos (by rfl), if_neg (by decide)]
      simp only [List.length_cons]
      omega
    · rw [if_neg (by decide), if_pos (by rfl)]
      simp only [List.length_cons]
      omega

/-- C1: every cycle result of the batch processor reports an authorized
count and an unauthorized count that sum to the reported total, and its
validation_passed flag is true. -/
theorem C1_counts_consistent (flights : List (List PyVal)) (plan : SimPlan)
    (src : String) (now : ℚ) (env : EmailEnv) (tr0 : List (String × ℚ)) :
    (fetch_opensky_data flights plan src now env tr0).validation.authorized +
        (fetch_opensky_data flights plan src now env tr0).validation.unauthorized =
      (fetch_opensky_data flights plan src now env tr0).validation.total_drones ∧
    (fetch_opensky_data flights plan src now env tr0).validation.validation_passed = true := by
  have h := count_split (cycleCore flights plan src now tr0).reports
  exact ⟨h, decide_eq_true h⟩

/-- C2: at the cooldown gate, a tracked entity last alerted at t0 that is
sighted unauthorized at t1 produces no event and no state change when
t1 - t0 is within the 300 s window, and produces exactly one appended event
with its timestamp reset to t1 when t1 - t0 exceeds the window; an entity
absent from the tracker always produces exactly one event. -/
theorem C2_cooldown_gate (tr : List (String × ℚ)) (al : List ViolationEvent)
    (X : String) (la lo : ℝ) (z : Option String) (t0 t1 : ℚ)
    (h : lookupT tr X = some t0) :
    (t1 - t0 ≤ ALERT_COOLDOWN → alertStep ⟨tr, al⟩ X la lo z true t1 = ⟨tr, al⟩) ∧
    (ALERT_COOLDOWN < t1 - t0 →
      alertStep ⟨tr, al⟩ X la lo z true t1 =
          ⟨insertT tr X t1, al ++ [⟨X, la, lo, z⟩]⟩ ∧
        lookupT (alertStep ⟨tr, al⟩ X la lo z true t1).tracker X = some t1) ∧
    (∀ tr2, lookupT tr2 X = none →
      alertStep ⟨tr2, al⟩ X la lo z true t1 =
          ⟨insertT tr2 X t1, al ++ [⟨X, la, lo, z⟩]⟩ ∧
        lookupT (alertStep ⟨tr2, al⟩ X la lo z true t1).tracker X = some t1) := by
  refine ⟨?_, ?_, ?_⟩
  · intro hle
    simp [alertStep, h, not_lt.mpr hle]
  · intro hlt
    refine ⟨by simp [alertStep, h, hlt], ?_⟩
    simp [alertStep, h, hlt, lookupT_insertT_self]
  · intro tr2 h2
    refine ⟨by simp [alertStep, h2], ?_⟩
    simp [alertStep, h2, lookupT_insertT_self]

/-- Witness for C2: entity "X" last alerted at t0 = 0 stays silent at
t1 = 100 and fires exactly once, with the timestamp reset, at t1 = 301. -/
theorem C2_cooldown_gate_witness :
    ((100 : ℚ) - 0 ≤ ALERT_COOLDOWN ∧
      alertStep ⟨[("X", 0)], []⟩ "X" 1 2 (some "Z") true 100 = ⟨[("X", 0)], []⟩) ∧
    (ALERT_COOLDOWN < (301 : ℚ) - 0 ∧
      lookupT (alertStep ⟨[("X", 0)], []⟩ "X" 1 2 (some "Z") true 301).tracker "X" =
        some 301) := by
  have h1 := C2_cooldown_gate [("X", 0)] [] "X" 1 2 (some "Z") 0 100 (by decide)
  have h2 := C2_cooldown_gate [("X", 0)] [] "X" 1 2 (some "Z") 0 301 (by decide)
  exact ⟨⟨by norm_num, h1.1 (by norm_num)⟩, ⟨by norm_num, (h2.2.1 (by norm_num)).2⟩⟩

/-- The per-cycle alerting invariant: every event batched so far belongs to
an entity whose tracker entry equals the current cycle time, and the batch
holds at most one event per callsign. -/
def GoodSt (now : ℚ) (st : AlertSt) : Prop :=
  (∀ e ∈ st.alerts, lookupT st.tracker e.callsign = some now) ∧
    (st.alerts.map ViolationEvent.callsign).Nodup

lemma good_extend (tr : List (String × ℚ)) (al : List ViolationEvent)
    (cs : String) (la lo : ℝ) (z : Option String) (now : ℚ)
    (h1 : ∀ e ∈ al, lookupT tr e.callsign = some now)
    (h2 : (al.map ViolationEvent.callsign).Nodup)
    (hfr : ∀ e ∈ al, e.callsign ≠ cs) :
    GoodSt now ⟨insertT tr cs now, al ++ [⟨cs, la, lo, z⟩]⟩ := by
  constructor
  · intro e he
    rcases List.mem_append.mp he with he | he
    · rw [lookupT_insertT_ne _ _ _ _ (hfr e he)]
      exact h1 e he
    · have he' : e = ⟨cs, la, lo, z⟩ := by simpa using he
      subst he'
      exact lookupT_insertT_self tr cs now
  · rw [List.map_append, List.nodup_append]
    refine ⟨h2, by simp, ?_⟩
    intro a ha hb
    simp only [List.map_cons, List.map_nil, List.mem_singleton] at hb
    obtain ⟨e, he, hea⟩ := List.mem_map.mp ha
    exact hfr e he (by rw [hea, hb])

lemma alertStep_good (st : AlertSt) (cs : String) (la lo : ℝ) (z : Option String)
    (u : Bool) (now : ℚ) (h : GoodSt now st) :
    GoodSt now (alertStep st cs la lo z u now) := by
  obtain ⟨h1, h2⟩ := h
  have hfresh : lookupT st.tracker cs ≠ some now → ∀ e ∈ st.alerts, e.callsign ≠ cs := by
    intro hc e he heq
    have hl := h1 e he
    rw [heq] at hl
    exact hc hl
  cases u with
  | false => exact ⟨h1, h2⟩
  | true =>
    cases hl : lookupT st.tracker cs with
    | none =>
      simp only [alertStep, hl, if_true]
      exact good_extend _ _ _ _ _ _ _ h1 h2 (hfresh (by rw [hl]; exact fun hh => Option.noConfusion hh))
    | some last =>
      by_cases hc : ALERT_COOLDOWN < now - last
      · simp only [alertStep, hl, if_true, if_pos hc]
        refine good_extend _ _ _ _ _ _ _ h1 h2 (hfresh ?_)
        rw [hl]
        intro hh
        have hlast : last = now := by injection hh
        subst hlast
        rw [sub_self] at hc
        exact absurd hc (by norm_num)
      · simp only [alertStep, hl, if_true, if_neg hc]
        exact ⟨h1, h2⟩

lemma alertStep_suppressed (st : AlertSt) (cs : String) (la lo : ℝ)
    (z : Option String) (u : Bool) (now : ℚ) (X : String) (t0 : ℚ)
    (ht : now - t0 ≤ ALERT_COOLDOWN)
    (h : lookupT st.tracker X = some t0 ∧ ∀ e ∈ st.alerts, e.callsign ≠ X) :
    lookupT (alertStep st cs la lo z u now).tracker X = some t0 ∧
      ∀ e ∈ (alertStep st cs la lo z u now).alerts, e.callsign ≠ X := by
  obtain ⟨h1, ha⟩ := h
  cases u with
  | false => exact ⟨h1, ha⟩
  | true =>
    by_cases hcs : cs = X
    · subst hcs
      simp only [alertStep, h1, if_true, if_neg (not_lt.mpr ht)]
      refine ⟨?_, ha⟩
      simp [h1]
    · have hXcs : X ≠ cs := fun hh => hcs hh.symm
      have hnew : ∀ e ∈ st.alerts ++ [(⟨cs, la, lo, z⟩ : ViolationEvent)], e.callsign ≠ X := by
        intro e he
        rcases List.mem_append.mp he with he | he
        · exact ha e he
        · have he' : e = ⟨cs, la, lo, z⟩ := by simpa using he
          subst he'
          exact fun hh => hcs hh
      cases hl : lookupT st.tracker cs with
      | none =>
        simp only [alertStep, hl, if_true]
        exact ⟨by rw [lookupT_insertT_ne _ _ _ _ hXcs]; exact h1, hnew⟩
      | some last =>
        by_cases hc : ALERT_COOLDOWN < now - last
        · simp only [alertStep, hl, if_true, if_pos hc]
          exact ⟨by rw [lookupT_insertT_ne _ _ _ _ hXcs]; exact h1, hnew⟩
        · simp only [alertStep, hl, if_true, if_neg hc]
          exact ⟨h1, ha⟩

lemma processReal_astate_inv (src : String) (now : ℚ) (P : AlertSt → Prop)
    (hP : ∀ st cs la lo z u, P st → P (alertStep st cs la lo z u now)) :
    ∀ flights st, P st.astate → P (processReal src now flights st).astate := by
  intro flights
  induction flights with
  | nil => intro st h; exact h
  | cons s rest ih =>
    intro st h
    cases hp : parseState s with
    | none =>
      simp only [processReal, hp]
      exact ih st h
    | some p =>
      simp only [processReal, hp]
      exact ih _ (hP _ _ _ _ _ _ h)

lemma simAuthLoop_astate (src : String) (target : ℕ) :
    ∀ ds count st, (simAuthLoop src target ds count st).astate = st.astate := by
  intro ds
  induction ds with
  | nil => intro count st; rfl
  | cons d ds ih =>
    intro count st
    by_cases h : target ≤ count
    · simp [simAuthLoop, h]
    · simp only [simAuthLoop, if_neg h]
      split
      · exact ih count st
      · exact ih (count + 1) _

lemma simUnauthLoop_astate_inv (src : String) (now : ℚ) (P : AlertSt → Prop)
    (hP : ∀ st cs la lo z u, P st → P (alertStep st cs la lo z u now)) :
    ∀ ds st, P st.astate → P (simUnauthLoop src now ds st).astate := by
  intro ds
  induction ds with
  | nil => intro st h; exact h
  | cons d ds ih =>
    intro st h
    simp only [simUnauthLoop]
    exact ih _ (hP _ _ _ _ _ _ h)

lemma cycleCore_astate_inv (flights : List (List PyVal)) (plan : SimPlan)
    (src : String) (now : ℚ) (tr0 : List (String × ℚ)) (P : AlertSt → Prop)
    (hP : ∀ st cs la lo z u, P st → P (alertStep st cs la lo z u now))
    (h0 : P ⟨tr0, []⟩) :
    P (cycleCore flights plan src now tr0).astate := by
  unfold cycleCore
  by_cases hf : flights.isEmpty
  · simp only [hf, if_true]
    split
    · rw [simAuthLoop_astate]
      exact h0
    · refine simUnauthLoop_astate_inv src now P hP _ _ ?_
      rw [simAuthLoop_astate]
      exact h0
  · simp only [hf, if_false, Bool.false_eq_true]
    exact processReal_astate_inv src now P hP flights _ h0

lemma lookupT_purge (tr : List (String × ℚ)) (X : String) (t0 now : ℚ)
    (h : lookupT tr X = some t0) (h2 : now - t0 ≤ ALERT_COOLDOWN) :
    lookupT (purgeExpired tr now) X = some t0 := by
  induction tr with
  | nil => simp [lookupT] at h
  | cons e rest ih =>
    obtain ⟨a, b⟩ := e
    by_cases he : a = X
    · subst he
      have hb : b = t0 := by simpa [lookupT] using h
      subst hb
      have hkeep : (!(decide (ALERT_COOLDOWN < now - b))) = true := by
        rw [decide_eq_false (not_lt.mpr h2)]
        rfl
      unfold purgeExpired
      rw [List.filter_cons, if_pos hkeep]
      simp [lookupT]
    · have h' : lookupT rest X = some t0 := by simpa [lookupT, he] using h
      unfold purgeExpired
      rw [List.filter_cons]
      split
      · simpa [lookupT, he] using ih h'
      · exact ih h'

/-- C3: within one cycle the violation-event batch never holds two events
for the same callsign, and an entity whose cooldown window is still open at
cycle time neither appears in the batch nor has its recorded alert
timestamp changed. -/
theorem C3_per_cycle_dedup_and_no_refresh (flights : List (List PyVal))
    (plan : SimPlan) (src : String) (now : ℚ) (env : EmailEnv)
    (tr0 : List (String × ℚ)) :
    ((fetch_opensky_data flights plan src now env tr0).alerts.map
        ViolationEvent.callsign).Nodup ∧
    ∀ X t0, lookupT tr0 X = some t0 → now - t0 ≤ ALERT_COOLDOWN →
      (∀ e ∈ (fetch_opensky_data flights plan src now env tr0).alerts,
          e.callsign ≠ X) ∧
        lookupT (fetch_opensky_data flights plan src now env tr0).tracker X =
          some t0 := by
  have hgood : GoodSt now (cycleCore flights plan src now tr0).astate :=
    cycleCore_astate_inv flights plan src now tr0 (GoodSt now)
      (fun st cs la lo z u h => alertStep_good st cs la lo z u now h)
      ⟨by simp, by simp⟩
  refine ⟨hgood.2, ?_⟩
  intro X t0 h ht
  have hsup :
      lookupT (cycleCore flights plan src now tr0).astate.tracker X = some t0 ∧
        ∀ e ∈ (cycleCore flights plan src now tr0).astate.alerts, e.callsign ≠ X :=
    cycleCore_astate_inv flights plan src now tr0
      (fun st => lookupT st.tracker X = some t0 ∧ ∀ e ∈ st.alerts, e.callsign ≠ X)
      (fun st cs la lo z u hh => alertStep_suppressed st cs la lo z u now X t0 ht hh)
      ⟨h, by simp⟩
  exact ⟨hsup.2, lookupT_purge _ _ _ _ hsup.1 ht⟩

/-- A trivial simulation tape: both targets zero, no draws. -/
def simPlan0 : SimPlan := ⟨0, 0, [], []⟩

/-- An SMTP world with credentials present and a successful transport. -/
def envOk : EmailEnv := ⟨true, .ok ()⟩

/-- Witness for C3 at a concrete input: entity "X" alerted at t0 = 0 and a
cycle at now = 100 with no sightings leaves the batch empty and the entry
untouched. -/
theorem C3_per_cycle_dedup_witness :
    ((fetch_opensky_data [] simPlan0 "s" 100 envOk [("X", 0)]).alerts.map
        ViolationEvent.callsign).Nodup ∧
      (∀ e ∈ (fetch_opensky_data [] simPlan0 "s" 100 envOk [("X", 0)]).alerts,
          e.callsign ≠ "X") ∧
      lookupT (fetch_opensky_data [] simPlan0 "s" 100 envOk [("X", 0)]).tracker "X" =
        some 0 := by
  have h := C3_per_cycle_dedup_and_no_refresh [] simPlan0 "s" 100 envOk [("X", 0)]
  have h2 := h.2 "X" 0 (by decide) (by norm_num)
  exact ⟨h.1, h2.1, h2.2⟩

lemma jfk_eval :
    is_unauthorized_flight (some ((40.6413 : ℚ) : ℝ)) (some (((-73.7781) : ℚ) : ℝ)) =
      (true, some "JFK Airport") := by
  have h0 : haversine (some ((40.6413 : ℚ) : ℝ)) (some (((-73.7781) : ℚ) : ℝ))
      (40.6413 : ℝ) ((-73.7781) : ℝ) = ((0 : ℝ) : EReal) := by
    have hla : ((40.6413 : ℚ) : ℝ) = (40.6413 : ℝ) := by norm_num
    have hlo : (((-73.7781) : ℚ) : ℝ) = ((-73.7781) : ℝ) := by norm_num
    rw [hla, hlo]
    exact haversine_self _ _
  have hcond : ((0 : ℝ) : EReal) ≤ ((10 : ℝ) : EReal) :=
    EReal.coe_le_coe_iff.mpr (by norm_num)
  show zoneScan ((40.6413 : ℚ) : ℝ) (((-73.7781) : ℚ) : ℝ) RESTRICTED_ZONES = _
  simp only [RESTRICTED_ZONES, zoneScan]
  rw [h0, if_pos hcond]

/-- A raw OpenSky state whose callsign is "JFKC" and whose position is the
centre of the JFK Airport zone. -/
def jfkRaw : List PyVal :=
  [ .vnone, .vstr "JFKC", .vnone, .vnone, .vnone
  , .vnum (-73.7781), .vnum 40.6413, .vnone, .vnone, .vnone
  , .vnone, .vnone, .vnone, .vnone ]

lemma jfkRaw_parse :
    parseState jfkRaw = some ⟨"JFKC", 40.6413, -73.7781, none, none, none⟩ := by
  rfl

lemma jfk_alerts :
    (cycleCore [jfkRaw] simPlan0 "s" 0 []).astate.alerts =
      [⟨"JFKC", ((40.6413 : ℚ) : ℝ), (((-73.7781) : ℚ) : ℝ), some "JFK Airport"⟩] := by
  show (processReal "s" 0 [jfkRaw] ⟨[], ⟨[], []⟩⟩).astate.alerts = _
  simp only [processReal, jfkRaw_parse, jfk_eval, alertStep, lookupT]
  simp

lemma isEmpty_false_of_ne {α : Type} (l : List α) (h : l ≠ []) :
    l.isEmpty = false := by
  cases l with
  | nil => exact absurd rfl h
  | cons a as => rfl

/-- C4: when the SMTP transport fails for a cycle with a non-empty alert
batch, the failure is error-logged, exactly one send is attempted (no
retry), the drones, alert batch and cooldown tracker are identical to what
any other transport outcome would produce (alerts still count as issued:
every batched entity keeps its fresh tracker entry), and the cycle still
returns a count-consistent result. -/
theorem C4_notification_failure (flights : List (List PyVal)) (plan : SimPlan)
    (src : String) (now : ℚ) (tr0 : List (String × ℚ)) (msg : String)
    (halerts : (fetch_opensky_data flights plan src now ⟨true, .error msg⟩ tr0).alerts ≠ []) :
    (fetch_opensky_data flights plan src now ⟨true, .error msg⟩ tr0).emailLog =
        ⟨1, true, false⟩ ∧
    (∀ env' : EmailEnv,
      (fetch_opensky_data flights plan src now env' tr0).drones =
          (fetch_opensky_data flights plan src now ⟨true, .error msg⟩ tr0).drones ∧
        (fetch_opensky_data flights plan src now env' tr0).alerts =
          (fetch_opensky_data flights plan src now ⟨true, .error msg⟩ tr0).alerts ∧
        (fetch_opensky_data flights plan src now env' tr0).tracker =
          (fetch_opensky_data flights plan src now ⟨true, .error msg⟩ tr0).tracker) ∧
    (∀ e ∈ (fetch_opensky_data flights plan src now ⟨true, .error msg⟩ tr0).alerts,
      lookupT (fetch_opensky_data flights plan src now ⟨true, .error msg⟩ tr0).tracker
          e.callsign = some now) ∧
    (fetch_opensky_data flights plan src now ⟨true, .error msg⟩ tr0).validation.validation_passed =
      true := by
  have hE : (cycleCore flights plan src now tr0).astate.alerts.isEmpty = false :=
    isEmpty_false_of_ne _ halerts
  have hgood : GoodSt now (cycleCore flights plan src now tr0).astate :=
    cycleCore_astate_inv flights plan src now tr0 (GoodSt now)
      (fun st cs la lo z u h => alertStep_good st cs la lo z u now h)
      ⟨by simp, by simp⟩
  refine ⟨?_, fun env' => ⟨rfl, rfl, rfl⟩, ?_, decide_eq_true (count_split _)⟩
  · show (if (cycleCore flights plan src now tr0).astate.alerts.isEmpty then
          EmailLog.mk 0 false false
        else send_batched_alert_email
          (cycleCore flights plan src now tr0).astate.alerts ⟨true, .error msg⟩) = _
    rw [hE]
    show send_batched_alert_email _ _ = _
    unfold send_batched_alert_email
    rw [hE]
    rfl
  · intro e he
    exact lookupT_purge _ _ _ _ (hgood.1 e he) (by rw [sub_self]; norm_num)

/-- Witness for C4: one real sighting at the JFK zone centre with a failing
transport — the failure is logged after a single attempt and the cycle
result stays count-consistent. -/
theorem C4_notification_failure_witness :
    (fetch_opensky_data [jfkRaw] simPlan0 "s" 0 ⟨true, .error "x"⟩ []).emailLog =
        ⟨1, true, false⟩ ∧
      (fetch_opensky_data [jfkRaw] simPlan0 "s" 0 ⟨true, .error "x"⟩ []).validation.validation_passed =
        true := by
  have halerts :
      (fetch_opensky_data [jfkRaw] simPlan0 "s" 0 ⟨true, .error "x"⟩ []).alerts ≠ [] := by
    show (cycleCore [jfkRaw] simPlan0 "s" 0 []).astate.alerts ≠ []
    rw [jfk_alerts]
    simp
  have h := C4_notification_failure [jfkRaw] simPlan0 "s" 0 [] "x" halerts
  exact ⟨h.1, h.2.2.2⟩

/-- True when the raw callsign slot is rejected as blank by lines 357 and
365 of src/main.py: the slot is falsy (None, empty string, zero) or its
string form strips to the empty string. -/
def blankCallsign (v : PyVal) : Bool :=
  !v.truthy || (pyStrip v.toStr == "")

/-- C6: the inline normalizer rejects a raw state exactly when the record
is shorter than 14 fields, the identifier is blank, or the latitude or
longitude is missing or non-numeric; a rejected state is skipped without
raising and contributes nothing to the cycle (it is not counted). -/
theorem C6_normalizer_rejection (s : List PyVal) (rest : List (List PyVal))
    (src : String) (now : ℚ) (st : CycleSt) :
    (parseState s = none ↔
      s.length < 14 ∨ blankCallsign (s.getD 1 .vnone) = true ∨
        (s.getD 6 .vnone).toNum = none ∨ (s.getD 5 .vnone).toNum = none) ∧
    (parseState s = none →
      processReal src now (s :: rest) st = processReal src now rest st) := by
  constructor
  · unfold parseState
    by_cases hlen : s.length < 14
    · simp [hlen]
    · rw [if_neg hlen]
      generalize s.getD 1 PyVal.vnone = v1
      generalize (s.getD 6 PyVal.vnone).toNum = t6
      generalize (s.getD 5 PyVal.vnone).toNum = t5
      by_cases htr : v1.truthy
      · cases t6 with
        | none => cases t5 <;> simp [hlen, htr, blankCallsign]
        | some la =>
          cases t5 with
          | none => simp [hlen, htr, blankCallsign]
          | some lo =>
            by_cases hc : pyStrip v1.toStr = ""
            · simp [hlen, htr, hc, blankCallsign]
            · simp [hlen, htr, hc, blankCallsign]
      · cases t6 <;> cases t5 <;> simp [hlen, htr, blankCallsign]
  · intro h
    simp only [processReal, h]

/-- Witness for C6: the empty raw record is rejected (it is shorter than 14
fields) and processing it is the same as processing nothing. -/
theorem C6_normalizer_rejection_witness :
    parseState [] = none ∧
      processReal "s" 0 [[]] ⟨[], ⟨[], []⟩⟩ = processReal "s" 0 [] ⟨[], ⟨[], []⟩⟩ := by
  have h := C6_normalizer_rejection [] [] "s" 0 ⟨[], ⟨[], []⟩⟩
  have hn : parseState ([] : List PyVal) = none := h.1.mpr (Or.inl (by decide))
  exact ⟨hn, h.2 hn⟩

lemma simUnauthLoop_reports (src : String) (now : ℚ) :
    ∀ ds st, (simUnauthLoop src now ds st).reports =
      st.reports ++ ds.map (simUnauthReport src) := by
  intro ds
  induction ds with
  | nil => intro st; simp [simUnauthLoop]
  | cons d ds ih =>
    intro st
    simp only [simUnauthLoop]
    rw [ih]
    simp

/-- C7: in the simulation fallback, the emitted drone list consists of the
authorized samples followed by one record per unauthorized draw, and every
such record stores the unauthorized flag produced by re-running the zone
classification on the sampled point, with the zone gated on that re-checked
flag — the flag is never forced. -/
theorem C7_sim_recheck_truth (plan : SimPlan) (src : String) (now : ℚ)
    (env : EmailEnv) (tr0 : List (String × ℚ)) :
    (fetch_opensky_data [] plan src now env tr0).drones =
      (simAuthLoop src plan.targetAuth (plan.authDraws.take 500) 0
          ⟨[], ⟨tr0, []⟩⟩).reports ++
        (plan.unauthDraws.take plan.targetUnauth).map (simUnauthReport src) ∧
    ∀ d : UnauthDraw,
      (simUnauthReport src d).unauthorized =
          (is_unauthorized_flight (some (simPoint d).1) (some (simPoint d).2)).1 ∧
        (simUnauthReport src d).zone =
          (if (is_unauthorized_flight (some (simPoint d).1) (some (simPoint d).2)).1
            then (is_unauthorized_flight (some (simPoint d).1) (some (simPoint d).2)).2
            else none) := by
  constructor
  · exact simUnauthLoop_reports src now _ _
  · intro d
    exact ⟨rfl, rfl⟩

/-- A raw OpenSky state with a valid callsign and position but a negative
barometric altitude (-5 m) and a negative velocity (-10 m/s). -/
def badRaw : List PyVal :=
  [ .vnone, .vstr "NEG1", .vnone, .vnone, .vnone
  , .vnum 1, .vnum 2, .vnum (-5), .vnone, .vnum (-10)
  , .vnone, .vnone, .vnone, .vnone ]

lemma badRaw_parse :
    parseState badRaw = some ⟨"NEG1", 2, 1, some (-10), none, some (-5)⟩ := by
  rfl

lemma badRaw_reports :
    (fetch_opensky_data [badRaw] simPlan0 "s" 0 envOk []).drones.map
        (fun r => (r.altitude, r.velocity)) =
      [(round ((-5 : ℚ)), roundTo1 ((-10) * 3.6))] := by
  show ((processReal "s" 0 [badRaw] ⟨[], ⟨[], []⟩⟩).reports.map _) = _
  simp only [processReal, badRaw_parse]
  simp

/-- Counterexample to C8 as stated: a real flight whose source reports a
negative barometric altitude and a negative velocity is passed through
unclamped, so its classified report carries altitude -5 and velocity -36 —
both negative. -/
theorem C8_counterexample :
    ¬ (∀ r ∈ (fetch_opensky_data [badRaw] simPlan0 "s" 0 envOk []).drones,
        0 ≤ r.altitude ∧ 0 ≤ r.velocity) := by
  intro h
  have hm : (round ((-5 : ℚ)), roundTo1 ((-10) * 3.6)) ∈
      (fetch_opensky_data [badRaw] simPlan0 "s" 0 envOk []).drones.map
        (fun r => (r.altitude, r.velocity)) := by
    rw [badRaw_reports]
    simp
  obtain ⟨r, hr, hpair⟩ := List.mem_map.mp hm
  have h2 := h r hr
  have halt : r.altitude = round ((-5 : ℚ)) := by
    have h3 := congrArg Prod.fst hpair
    simpa using h3
  have hval : round ((-5 : ℚ)) = -5 := by
    rw [round_eq]
    norm_num
  rw [halt, hval] at h2
  exact absurd h2.1 (by norm_num)

lemma round_nonneg_q (q : ℚ) (h : 0 ≤ q) : 0 ≤ round q := by
  rw [round_eq]
  exact Int.floor_nonneg.mpr (by linarith)

lemma roundTo1_nonneg (q : ℚ) (h : 0 ≤ q) : 0 ≤ roundTo1 q := by
  unfold roundTo1
  have h1 : (0 : ℤ) ≤ round (q * 10) := round_nonneg_q _ (by positivity)
  exact div_nonneg (by exact_mod_cast h1) (by norm_num)

lemma processReal_nonneg (src : String) (now : ℚ) :
    ∀ flights st,
      (∀ s ∈ flights, ∀ p : Parsed, parseState s = some p →
        (∀ v, p.velocity = some v → 0 ≤ v) ∧
          (∀ a, p.geo_altitude = some a → 0 ≤ a) ∧
          (∀ a, p.baro_altitude = some a → 0 ≤ a)) →
      (∀ r ∈ st.reports, 0 ≤ r.altitude ∧ 0 ≤ r.velocity) →
      ∀ r ∈ (processReal src now flights st).reports,
        0 ≤ r.altitude ∧ 0 ≤ r.velocity := by
  intro flights
  induction flights with
  | nil => intro st _ hst; exact hst
  | cons s rest ih =>
    intro st hs hst
    cases hp : parseState s with
    | none =>
      simp only [processReal, hp]
      exact ih st (fun s' hs' => hs s' (List.mem_cons_of_mem _ hs')) hst
    | some p =>
      simp only [processReal, hp]
      apply ih _ (fun s' hs' => hs s' (List.mem_cons_of_mem _ hs'))
      intro r hr
      rcases List.mem_append.mp hr with hr | hr
      · exact hst r hr
      · rw [List.mem_singleton] at hr
        subst hr
        obtain ⟨hv, hg, hb⟩ := hs s (List.mem_cons_self s rest) p hp
        constructor
        · cases hga : p.geo_altitude with
          | some g => simp only [hga]; exact round_nonneg_q g (hg g hga)
          | none =>
            cases hba : p.baro_altitude with
            | some b => simp only [hga, hba]; exact round_nonneg_q b (hb b hba)
            | none => simp only [hga, hba]; exact le_refl 0
        · cases hvv : p.velocity with
          | some v =>
            simp only [hvv]
            exact roundTo1_nonneg _ (mul_nonneg (hv v hvv) (by norm_num))
          | none =>
            simp only [hvv]
            exact roundTo1_nonneg 0 (le_refl 0)

lemma simAuthLoop_nonneg (src : String) (target : ℕ) :
    ∀ ds count st,
      (∀ d ∈ ds, (0 : ℤ) ≤ d.alt ∧ (0 : ℤ) ≤ d.vel) →
      (∀ r ∈ st.reports, 0 ≤ r.altitude ∧ 0 ≤ r.velocity) →
      ∀ r ∈ (simAuthLoop src target ds count st).reports,
        0 ≤ r.altitude ∧ 0 ≤ r.velocity := by
  intro ds
  induction ds with
  | nil => intro count st _ hst; exact hst
  | cons d ds ih =>
    intro count st hd hst
    by_cases h : target ≤ count
    · simp only [simAuthLoop, if_pos h]
      exact hst
    · simp only [simAuthLoop, if_neg h]
      have hd' := fun d' hd'' => hd d' (List.mem_cons_of_mem _ hd'')
      split
      · exact ih count st hd' hst
      · apply ih (count + 1) _ hd'
        intro r hr
        rcases List.mem_append.mp hr with hr | hr
        · exact hst r hr
        · rw [List.mem_singleton] at hr
          subst hr
          obtain ⟨ha, hv⟩ := hd d (List.mem_cons_self d ds)
          refine ⟨ha, ?_⟩
          show (0 : ℚ) ≤ ((d.vel : ℤ) : ℚ)
          exact_mod_cast hv

lemma simUnauthLoop_nonneg (src : String) (now : ℚ) (ds : List UnauthDraw)
    (st : CycleSt)
    (hd : ∀ d ∈ ds, (0 : ℤ) ≤ d.alt ∧ (0 : ℤ) ≤ d.vel)
    (hst : ∀ r ∈ st.reports, 0 ≤ r.altitude ∧ 0 ≤ r.velocity) :
    ∀ r ∈ (simUnauthLoop src now ds st).reports,
      0 ≤ r.altitude ∧ 0 ≤ r.velocity := by
  intro r hr
  rw [simUnauthLoop_reports] at hr
  rcases List.mem_append.mp hr with hr | hr
  · exact hst r hr
  · obtain ⟨d, hdm, hre⟩ := List.mem_map.mp hr
    subst hre
    obtain ⟨ha, hv⟩ := hd d hdm
    refine ⟨ha, ?_⟩
    show (0 : ℚ) ≤ ((d.vel : ℤ) : ℚ)
    exact_mod_cast hv

/-- C8 amended: altitude and velocity default to 0 when the source value is
absent, and every classified report has non-negative altitude and velocity
PROVIDED the numeric source values (and the simulated randint draws, which
the code always takes from positive ranges) are non-negative; a negative
source value is passed through to the report unclamped. -/
theorem C8_amended_nonneg (flights : List (List PyVal)) (plan : SimPlan)
    (src : String) (now : ℚ) (env : EmailEnv) (tr0 : List (String × ℚ))
    (hreal : ∀ s ∈ flights, ∀ p : Parsed, parseState s = some p →
      (∀ v, p.velocity = some v → 0 ≤ v) ∧
        (∀ a, p.geo_altitude = some a → 0 ≤ a) ∧
        (∀ a, p.baro_altitude = some a → 0 ≤ a))
    (hauth : ∀ d ∈ plan.authDraws, (0 : ℤ) ≤ d.alt ∧ (0 : ℤ) ≤ d.vel)
    (hunauth : ∀ d ∈ plan.unauthDraws, (0 : ℤ) ≤ d.alt ∧ (0 : ℤ) ≤ d.vel) :
    ∀ r ∈ (fetch_opensky_data flights plan src now env tr0).drones,
      0 ≤ r.altitude ∧ 0 ≤ r.velocity := by
  show ∀ r ∈ (cycleCore flights plan src now tr0).reports, _
  unfold cycleCore
  by_cases hf : flights.isEmpty
  · simp only [hf, if_true]
    have hA : ∀ r ∈ (simAuthLoop src plan.targetAuth (plan.authDraws.take 500) 0
        ⟨[], ⟨tr0, []⟩⟩).reports, 0 ≤ r.altitude ∧ 0 ≤ r.velocity := by
      apply simAuthLoop_nonneg src plan.targetAuth _ 0 _
        (fun d hd => hauth d (List.take_subset _ _ hd))
      intro r hr
      exact absurd hr (List.not_mem_nil r)
    split
    · exact hA
    · exact simUnauthLoop_nonneg src now _ _
        (fun d hd => hunauth d (List.take_subset _ _ hd)) hA
  · simp only [hf, if_false, Bool.false_eq_true]
    apply processReal_nonneg src now flights _ hreal
    intro r hr
    exact absurd hr (List.not_mem_nil r)

/-- A one-draw simulation tape with non-negative altitude and velocity
draws, mirroring the randint ranges of the code. -/
def planW : SimPlan := ⟨1, 1, [⟨10, 20, 1000, 300, 50⟩], [⟨0, 7/10, 0, 100, 50, 30⟩]⟩

/-- Witness for the amended C8 at a concrete input: in a simulation cycle
with non-negative draws, the report produced for the single unauthorized
draw — a member of the cycle's drone list — has non-negative altitude and
velocity. -/
theorem C8_amended_nonneg_witness :
    0 ≤ (simUnauthReport "s" ⟨0, 7/10, 0, 100, 50, 30⟩).altitude ∧
      0 ≤ (simUnauthReport "s" ⟨0, 7/10, 0, 100, 50, 30⟩).velocity := by
  have h := C8_amended_nonneg [] planW "s" 0 envOk []
    (fun s hs => absurd hs (List.not_mem_nil s)) (by decide) (by decide)
  apply h
  show simUnauthReport "s" ⟨0, 7/10, 0, 100, 50, 30⟩ ∈
    (simUnauthLoop "s" 0 (planW.unauthDraws.take planW.targetUnauth)
      (simAuthLoop "s" planW.targetAuth (planW.authDraws.take 500) 0
        ⟨[], ⟨[], []⟩⟩)).reports
  rw [simUnauthLoop_reports]
  apply List.mem_append_right
  simp [planW]

/-- C10: the /force-drone point check reads only its coordinate arguments
and the static registry — deleting every point check from a request trace
changes neither the final cooldown state nor any cycle outcome, and the
response is exactly the classifier's verdict on the given point. -/
theorem C10_pointcheck_frame (evs : List Event) (tr : List (String × ℚ)) :
    runTrace tr (evs.filter Event.isCycle) = runTrace tr evs ∧
    ∀ la lo : ℝ, force_custom_drone la lo =
      ⟨"TEST-DRONE", la, lo, (is_unauthorized_flight (some la) (some lo)).1,
        (is_unauthorized_flight (some la) (some lo)).2⟩ := by
  constructor
  · induction evs generalizing tr with
    | nil => rfl
    | cons e evs ih =>
      cases e with
      | cycle f p s n en =>
        simp only [List.filter_cons, Event.isCycle, if_pos, runTrace]
        rw [ih]
      | pointCheck la lo =>
        simp only [List.filter_cons, Event.isCycle, runTrace]
        rw [if_neg (by simp)]
        exact ih tr
  · intro la lo
    rfl

end DroneTrack
